import Mathlib

/-!
Shallow embedding of the AI Dungeon Master gameplay orchestration code:
`src/services/orchestrator_service.py` (routing functions of the master
graph), `src/services/gameplay_executor.py` (the 7-step turn executor)
and `src/core/gameplay_phase.py` (the Phase-3 data model).

Python floats are modelled as rationals, Python ints as `Int` (or `Nat`
for the retry counter, which is only ever 0-incremented), Python lists
as `List`, optional values as `Option`.  Python string operations
`.lower()` / `.strip()` and the substring test `in` are modelled
character-wise over `String.data`.
-/

/-- Model of Python `str.lower()`: lowercase every character. -/
def pyLower (s : String) : String := ⟨s.data.map Char.toLower⟩

/-- Model of Python `str.strip()`: drop whitespace from both ends. -/
def pyStrip (s : String) : String :=
  ⟨((s.data.dropWhile Char.isWhitespace).reverse.dropWhile Char.isWhitespace).reverse⟩

/-- Does the character list start with the given needle? -/
def listStartsWith : List Char → List Char → Bool
  | _, [] => true
  | [], _ :: _ => false
  | a :: as, b :: bs => (a = b) && listStartsWith as bs

/-- Does the character list contain the needle as a contiguous sublist? -/
def charListHasSub : List Char → List Char → Bool
  | [], needle => needle.isEmpty
  | c :: cs, needle => listStartsWith (c :: cs) needle || charListHasSub cs needle

/-- Model of Python `needle in hay` on strings (substring containment). -/
def strHasSub (hay needle : String) : Bool := charListHasSub hay.data needle.data

/-- Embedding of `src/core/gameplay_phase.py` `ActionIntentType`: categories of player intent. -/
inductive ActionIntentType where
  | attack
  | defend
  | cast_spell
  | skill_check
  | interact
  | dialogue
  | investigate
  | move
  | help
  | dodge
  | counter
  | unknown
deriving DecidableEq, Repr

/-- Embedding of `src/core/gameplay_phase.py` `ActionResolutionStatus`. -/
inductive ActionResolutionStatus where
  | pending
  | validated
  | resolved
  | failed
  | critical_hit
  | critical_fail
deriving DecidableEq, Repr

/-- Embedding of `src/core/gameplay_phase.py` `RollResult`: result of a single D&D roll. -/
structure RollResult where
  dice_type : String
  rolls : List Int
  modifier : Int := 0
  total : Int
  is_advantage : Bool := false
  is_disadvantage : Bool := false
deriving DecidableEq, Repr

/-- Embedding of `src/core/gameplay_phase.py` `ActionOutcomeToken`: resolved mechanical
outcome of an action (the `resolved_at` timestamp is not modelled). -/
structure ActionOutcomeToken where
  action_id : String
  performer_id : String
  intent_type : ActionIntentType
  status : ActionResolutionStatus
  primary_roll : Option RollResult := none
  secondary_rolls : List RollResult := []
  difficulty_class : Option Int := none
  meets_dc : Option Bool := none
  damage_dealt : Int := 0
  healing_received : Int := 0
  mechanical_summary : String
  effectiveness : ℚ
  rule_violations : List String := []
  is_valid : Bool := true
deriving DecidableEq, Repr

/-- Embedding of `src/core/gameplay_phase.py` `WorldStateChange` (the `old_value` /
`new_value` `Any`-typed fields are both `None` wherever the executor
builds one, modelled as `Option String`; timestamp not modelled). -/
structure WorldStateChange where
  change_type : String
  target_id : String
  old_value : Option String := none
  new_value : Option String := none
  reason : String
deriving DecidableEq, Repr

/-- Embedding of `src/core/gameplay_phase.py` `EventNode`: canonical event record in the
game chronicle (timestamp and the continuity link fields not modelled). -/
structure EventNode where
  event_id : String
  turn_number : Int
  phase : String
  performer_id : Option String := none
  action_intent : Option ActionIntentType := none
  outcome_token : Option ActionOutcomeToken := none
  state_changes : List WorldStateChange := []
  scene_context : String := ""
  npc_reactions : List (String × String) := []
deriving DecidableEq, Repr

/-- Embedding of `src/core/gameplay_phase.py` `SessionMemory`: dual-layer memory
(`session_start` timestamp and the auxiliary dict fields not modelled). -/
structure SessionMemory where
  session_id : String
  current_turn : Int := 0
  recent_events : List EventNode := []
  campaign_id : String
  campaign_chronicle : List EventNode := []
deriving DecidableEq, Repr

/-- Embedding of `SessionMemory.add_event`: append to `recent_events`, truncate the
short-term window to the last 20, and (when `preserve_history`) append
to `campaign_chronicle`. -/
def SessionMemory.add_event (m : SessionMemory) (event : EventNode)
    (preserve_history : Bool) : SessionMemory :=
  let recent := m.recent_events ++ [event]
  let recent := if 20 < recent.length then recent.drop (recent.length - 20) else recent
  { m with
    recent_events := recent,
    campaign_chronicle :=
      if preserve_history then m.campaign_chronicle ++ [event] else m.campaign_chronicle }

/-- Embedding of `src/core/gameplay_phase.py` `PacingMetrics`. -/
structure PacingMetrics where
  turns_in_current_scene : Int := 0
  max_turns_per_scene : Int := 10
  base_tension : ℚ := 1/2
  current_tension : ℚ := 1/2
  tension_trajectory : List ℚ := []
  player_agency_score : ℚ := 1/2
  outcome_unpredictability : ℚ := 1/2
  combat_turns : Int := 0
  dialogue_turns : Int := 0
  exploration_turns : Int := 0
deriving DecidableEq, Repr

/-- Embedding of `PacingMetrics.should_transition_scene`: scene ends when the per-scene
turn counter reaches the cap, or after more than 5 turns at low tension. -/
def PacingMetrics.should_transition_scene (p : PacingMetrics) : Bool :=
  decide (p.max_turns_per_scene ≤ p.turns_in_current_scene)
    || (decide (5 < p.turns_in_current_scene) && decide (p.current_tension < 1/5))

/-- Embedding of `src/core/gameplay_phase.py` `SceneTransitionTrigger`. -/
structure SceneTransitionTrigger where
  trigger_type : String
  condition_met : Bool
  reason : String
  next_scene_id : Option String := none
  fallback_scene_id : Option String := none
deriving DecidableEq, Repr

/-- Embedding of `src/core/types.py` character stats used by roll generation. -/
structure Stats where
  strength : Int := 10
  dexterity : Int := 10
  intelligence : Int := 10
  wisdom : Int := 10
  charisma : Int := 10
deriving DecidableEq, Repr

/-- Player character record (only the fields the executor reads). -/
structure Player where
  id : String
  name : String
  stats : Stats := {}
deriving DecidableEq, Repr

/-- Pending player action stored under `game_state["current_action"]`
(the source calls this class `Action`, a name Mathlib already takes). -/
structure GameAction where
  player_id : String
  description : String
deriving DecidableEq, Repr

/-- Embedding of `src/core/types.py` `ActionOutcome` (narration result; only the fields
the executor sets). -/
structure ActionOutcome where
  success : Bool
  narrative_result : String
deriving DecidableEq, Repr

/-- Director directives dict: the executor only reads the
`tension_adjustment` key (`none` models a dict without that key). -/
structure Directives where
  tension_adjustment : Option ℚ := none
deriving DecidableEq, Repr

/-- One intent dict built by `_step1_generate_actions`. -/
structure PlayerAction where
  performer_id : String
  intent_type : ActionIntentType
  description : String
deriving DecidableEq, Repr

/-- The judge verdict stored under `game_state["last_verdict"]`. -/
structure Verdict where
  is_valid : Bool
  correction_suggestion : String := ""
deriving DecidableEq, Repr

/-- The LangGraph `GameState` dict, restricted to the keys read or written
by the routing functions and the gameplay executor.  `end_flag` embeds the
`"__end__"` key and `retry_count` the `"_retry_count"` key (absent key
modelled as its Python default). -/
structure GameState where
  turn : Int := 0
  messages : List String := []
  response_type : Option String := none
  last_verdict : Option Verdict := none
  retry_count : Nat := 0
  end_flag : Bool := false
  players : List Player := []
  current_action : Option GameAction := none
  outcome_tokens : List ActionOutcomeToken := []
  last_world_changes : List WorldStateChange := []
  last_outcome : Option ActionOutcome := none
  director_directives : Option Directives := none
deriving DecidableEq, Repr

/-- Embedding of `src/core/gameplay_phase.py` `GameplayPhaseState`. -/
structure GameplayPhaseState where
  session_memory : SessionMemory
  turn_number : Int
  player_actions : List PlayerAction := []
  outcome_tokens : List ActionOutcomeToken := []
  world_state_deltas : List WorldStateChange := []
  pacing : PacingMetrics := {}
  scene_transitions : List SceneTransitionTrigger := []
  dm_directives : Option Directives := none
deriving DecidableEq, Repr

/-- The retry cap: `OrchestratorService.__init__` sets `self._max_retry_attempts = 2`. -/
def _max_retry_attempts : Nat := 2

/-- Targets of the conditional edge after the `judge` node. -/
inductive JudgeRoute where
  | action_resolver
  | world_engine_update
deriving DecidableEq, Repr

/-- Targets of the conditional edge after the `dm_planner` node. -/
inductive PlanRoute where
  | action_resolver
  | lore_builder_question
  | exit_check
deriving DecidableEq, Repr

/-- Embedding of `route_judge` from `OrchestratorService.build_pipeline`: quality-gate
routing after the judge node.  Mirrors the four Python branches in order;
a pydantic `verdict` object is always truthy, so `verdict and ...`
is modelled as a `some` match. -/
def route_judge (state : GameState) : JudgeRoute × GameState :=
  match state.last_verdict with
  | some verdict =>
    if verdict.is_valid then
      (JudgeRoute.world_engine_update, { state with retry_count := 0 })
    else if state.retry_count < _max_retry_attempts then
      (JudgeRoute.action_resolver, { state with retry_count := state.retry_count + 1 })
    else
      (JudgeRoute.world_engine_update, { state with retry_count := 0 })
  | none =>
    if _max_retry_attempts ≤ state.retry_count then
      (JudgeRoute.world_engine_update, { state with retry_count := 0 })
    else
      (JudgeRoute.world_engine_update, state)

/-- Embedding of `route_dm_plan` from `OrchestratorService.build_pipeline`: routes the
DM plan on `response_type` (missing key defaults to `"unknown"`, a falsy
value short-circuits to `exit_check`, otherwise lowercase + strip). -/
def route_dm_plan (state : GameState) : PlanRoute :=
  let response_type := state.response_type.getD ("unknown")
  if response_type = "" then
    PlanRoute.exit_check
  else
    let response_type_lower := pyStrip (pyLower response_type)
    if response_type_lower = "action" then PlanRoute.action_resolver
    else if response_type_lower = "question" then PlanRoute.lore_builder_question
    else if response_type_lower = "exit" then PlanRoute.exit_check
    else PlanRoute.exit_check

/-- The exit keywords scanned by `OrchestratorService._exit_check_node`. -/
def exit_keywords : List String := ["quit", "exit", "end", "goodbye", "bye"]

/-- Embedding of `OrchestratorService._exit_check_node`: sets `"__end__"` when the last
message contains an exit keyword (substring test on the lowercased text). -/
def _exit_check_node (state : GameState) : GameState :=
  match state.messages.getLast? with
  | none => state
  | some last_msg =>
    let msg_lower := pyLower last_msg
    if exit_keywords.any (fun keyword => strHasSub msg_lower keyword) then
      { state with end_flag := true }
    else
      state

/-- Embedding of `GameplayExecutor._classify_intent`: keyword scan over the lowercased
action description, in the branch order of the source. -/
def _classify_intent (action_description : String) : ActionIntentType :=
  let desc_lower := pyLower action_description
  if ["attack", "hit", "strike", "swing"].any (fun w => strHasSub desc_lower w) then
    ActionIntentType.attack
  else if ["cast", "spell", "magic"].any (fun w => strHasSub desc_lower w) then
    ActionIntentType.cast_spell
  else if ["talk", "say", "ask", "negotiate"].any (fun w => strHasSub desc_lower w) then
    ActionIntentType.dialogue
  else if ["check", "search", "look", "examine", "investigate"].any (fun w => strHasSub desc_lower w) then
    ActionIntentType.investigate
  else if ["move", "go", "walk", "run"].any (fun w => strHasSub desc_lower w) then
    ActionIntentType.move
  else if ["defend", "block", "shield"].any (fun w => strHasSub desc_lower w) then
    ActionIntentType.defend
  else
    ActionIntentType.unknown

/-- Embedding of `GameplayExecutor._get_dc_for_intent`: the per-intent difficulty table;
intents outside the dict fall to the `.get` default of 10. -/
def _get_dc_for_intent (intent_type : ActionIntentType) : Int :=
  match intent_type with
  | ActionIntentType.attack => 12
  | ActionIntentType.investigate => 10
  | ActionIntentType.dialogue => 11
  | ActionIntentType.cast_spell => 13
  | ActionIntentType.move => 8
  | ActionIntentType.defend => 10
  | ActionIntentType.unknown => 10
  | _ => 10

/-- Embedding of `GameplayExecutor._calculate_damage`: zero on a miss; attacks deal
`6 + max 0 (total - dc)`, spells `12 + max 0 (total - dc)`, others zero. -/
def _calculate_damage (intent_type : ActionIntentType) (roll : RollResult)
    (dc : Int) (meets_dc : Bool) : Int :=
  if !meets_dc then 0
  else if intent_type = ActionIntentType.attack then
    6 + max 0 (roll.total - dc)
  else if intent_type = ActionIntentType.cast_spell then
    12 + max 0 (roll.total - dc)
  else 0

/-- Embedding of `GameplayExecutor._generate_roll_for_intent`: the `random.randint(1, 20)`
die is an explicit `d20` argument; the ability modifier is
`(stat - 10) // 2` (Python floor division, `Int.fdiv`). -/
def _generate_roll_for_intent (intent_type : ActionIntentType)
    (players : List Player) (performer_id : String) (d20 : Int) : RollResult :=
  let player := players.find? (fun p => p.id = performer_id)
  let modifier : Int :=
    match player with
    | none => 0
    | some p =>
      match intent_type with
      | ActionIntentType.attack => Int.fdiv (p.stats.strength - 10) 2
      | ActionIntentType.cast_spell => Int.fdiv (p.stats.intelligence - 10) 2
      | ActionIntentType.dialogue => Int.fdiv (p.stats.charisma - 10) 2
      | ActionIntentType.investigate => Int.fdiv (p.stats.wisdom - 10) 2
      | ActionIntentType.move => Int.fdiv (p.stats.dexterity - 10) 2
      | ActionIntentType.defend => Int.fdiv (p.stats.dexterity - 10) 2
      | _ => 0
  { dice_type := "d20",
    rolls := [d20],
    modifier := modifier,
    total := d20 + modifier,
    is_advantage := false,
    is_disadvantage := false }

/-- Embedding of `GameplayExecutor._step1_generate_actions`: one intent dict from the
pending `current_action`, else a default investigate intent per player. -/
def _step1_generate_actions (game_state : GameState) : List PlayerAction :=
  match game_state.current_action with
  | some current_action =>
    [{ performer_id := current_action.player_id,
       intent_type := _classify_intent current_action.description,
       description := current_action.description }]
  | none =>
    game_state.players.map (fun player =>
      { performer_id := player.id,
        intent_type := ActionIntentType.investigate,
        description := player.name ++ " waits and observes the situation." })

/-- Loop body of `GameplayExecutor._step2_validate_actions`: build the
outcome token for one enumerated action from its generated roll. -/
def mkOutcomeToken (turn_number : Int) (action_idx : Nat)
    (action : PlayerAction) (primary_roll : RollResult) : ActionOutcomeToken :=
  let intent_type := action.intent_type
  let dc := _get_dc_for_intent intent_type
  let meets_dc := decide (dc ≤ primary_roll.total)
  let damage_dealt := _calculate_damage intent_type primary_roll dc meets_dc
  { action_id := "action_" ++ toString turn_number ++ "_" ++ toString action_idx,
    performer_id := action.performer_id,
    intent_type := intent_type,
    status := ActionResolutionStatus.resolved,
    primary_roll := some primary_roll,
    difficulty_class := some dc,
    meets_dc := some meets_dc,
    mechanical_summary :=
      action.description ++ " (rolled " ++ toString primary_roll.total
        ++ " vs DC " ++ toString dc ++ ")",
    effectiveness :=
      if 0 < dc then min 1 (max 0 (((primary_roll.total - dc : Int) : ℚ) / (dc : ℚ)))
      else 1,
    is_valid := true,
    damage_dealt := damage_dealt }

/-- Embedding of `GameplayExecutor._step2_validate_actions`: enumerate the actions, roll
for each (the die outcomes come from the `d20` oracle), and build tokens. -/
def _step2_validate_actions (turn_number : Int) (players : List Player)
    (player_actions : List PlayerAction) (d20 : Nat → Int) : List ActionOutcomeToken :=
  player_actions.enum.map (fun p =>
    mkOutcomeToken turn_number p.1 p.2
      (_generate_roll_for_intent p.2.intent_type players p.2.performer_id (d20 p.1)))

/-- Embedding of `GameplayExecutor._step3_update_world`: a `health` change per successful
token with positive damage. -/
def _step3_update_world (outcome_tokens : List ActionOutcomeToken) : List WorldStateChange :=
  outcome_tokens.foldl (fun state_changes token =>
    if token.meets_dc.getD false then
      if 0 < token.damage_dealt then
        state_changes ++
          [{ change_type := "health",
             target_id := token.performer_id,
             old_value := none,
             new_value := none,
             reason := "Damage from action: " ++ token.action_id }]
      else state_changes
    else state_changes) []

/-- Embedding of `GameplayExecutor._step4_narrate_outcome`: mock narration when no DM is
wired in, otherwise the first DM message (supplied as an oracle). -/
def _step4_narrate_outcome (outcome_tokens : List ActionOutcomeToken)
    (dm : Option String) : ActionOutcome :=
  let success := outcome_tokens.all (fun t => t.meets_dc.getD false)
  match dm with
  | none =>
    let narrative :=
      match outcome_tokens.head? with
      | some token =>
        if token.meets_dc.getD false then
          ("Your action succeeds! The situation changes as a result of your success.")
        else
          ("Your action fails. The situation remains largely unchanged.")
      | none => "The action unfolds before you..."
    { success := success, narrative_result := narrative }
  | some content =>
    { success := success, narrative_result := content }

/-- Embedding of `GameplayExecutor._step5_director_oversight`: bump the per-scene turn
counter, clamp `current_tension + tension_adjustment` into `[0, 1]` and
append the clamped value to the trajectory. -/
def _step5_director_oversight (pacing : PacingMetrics) (directives : Directives) :
    PacingMetrics :=
  let pacing := { pacing with turns_in_current_scene := pacing.turns_in_current_scene + 1 }
  let tension_adjustment := directives.tension_adjustment.getD 0
  let new_tension := min 1 (max 0 (pacing.current_tension + tension_adjustment))
  { pacing with
    current_tension := new_tension,
    tension_trajectory := pacing.tension_trajectory ++ [new_tension] }

/-- Loop body of `GameplayExecutor._step6_record_events`: the `EventNode`
built for one outcome token. -/
def mkEventNode (turn_number : Int) (state_changes : List WorldStateChange)
    (token : ActionOutcomeToken) : EventNode :=
  { event_id := token.action_id,
    turn_number := turn_number,
    phase := "action_resolution",
    performer_id := some token.performer_id,
    action_intent := some token.intent_type,
    outcome_token := some token,
    state_changes := state_changes,
    scene_context := "gameplay" }

/-- Embedding of `GameplayExecutor._step6_record_events`: one event per outcome token,
each recorded in the session memory via `add_event` (history preserved). -/
def _step6_record_events (turn_number : Int) (session_memory : SessionMemory)
    (outcome_tokens : List ActionOutcomeToken) (state_changes : List WorldStateChange) :
    List EventNode × SessionMemory :=
  let event_nodes := outcome_tokens.map (mkEventNode turn_number state_changes)
  (event_nodes, event_nodes.foldl (fun m e => m.add_event e true) session_memory)

/-- Embedding of `GameplayExecutor._step7_check_scene_transition`: build the trigger and
reset the per-scene counter exactly when `should_transition_scene` fires. -/
def _step7_check_scene_transition (pacing : PacingMetrics) :
    PacingMetrics × SceneTransitionTrigger :=
  let should_transition := pacing.should_transition_scene
  let trigger : SceneTransitionTrigger :=
    { trigger_type := if should_transition then ("pacing") else ("ongoing"),
      condition_met := should_transition,
      reason := "Scene duration: " ++ toString pacing.turns_in_current_scene ++ " turns" }
  if should_transition then
    ({ pacing with turns_in_current_scene := 0 }, trigger)
  else
    (pacing, trigger)

/-- Embedding of `GameplayExecutor.initialize_gameplay_phase`: fresh dual-layer memory
and a zeroed turn counter. -/
def initialize_gameplay_phase (campaign_id session_id : String) : GameplayPhaseState :=
  { session_memory :=
      { session_id := session_id, campaign_id := campaign_id, current_turn := 0 },
    turn_number := 0,
    pacing := {} }

/-- Embedding of `GameplayExecutor.execute_turn`: the seven steps of one gameplay turn.
Nondeterministic inputs are explicit oracles: the `d20` dice stream, the
optional DM narration text, and the director directives dict. -/
def execute_turn (gp0 : GameplayPhaseState) (game_state : GameState)
    (d20 : Nat → Int) (dm : Option String) (directives : Directives) :
    GameState × GameplayPhaseState :=
  let gp := { gp0 with turn_number := gp0.turn_number + 1 }
  let player_actions := _step1_generate_actions game_state
  let gp := { gp with player_actions := player_actions }
  let outcome_tokens := _step2_validate_actions gp.turn_number game_state.players player_actions d20
  let gp := { gp with outcome_tokens := outcome_tokens }
  let game_state := { game_state with outcome_tokens := outcome_tokens }
  let state_changes := _step3_update_world outcome_tokens
  let gp := { gp with world_state_deltas := state_changes }
  let game_state := { game_state with last_world_changes := state_changes }
  let narration_result := _step4_narrate_outcome outcome_tokens dm
  let pacing_result := _step5_director_oversight gp.pacing directives
  let gp := { gp with pacing := pacing_result, dm_directives := some directives }
  let step6 := _step6_record_events gp.turn_number gp.session_memory outcome_tokens state_changes
  let gp := { gp with session_memory := step6.2 }
  let step7 := _step7_check_scene_transition gp.pacing
  let gp := { gp with
    pacing := step7.1,
    scene_transitions := gp.scene_transitions ++ [step7.2] }
  let game_state := { game_state with
    last_outcome := some narration_result,
    director_directives := some directives,
    turn := gp.turn_number }
  (game_state, gp)

/-- C1: the quality-gate routing after the judge stage.  A present valid
verdict routes to the world-update stage; a present invalid verdict with
the stored retry counter strictly below the maximum of 2 increments the
counter and routes back to the action resolver; a present invalid verdict
with the counter at or above 2 routes to the world-update stage anyway, so
the resolve/judge loop is bounded by 2 retries per action. -/
theorem route_judge_quality_gate (state : GameState) (verdict : Verdict)
    (h : state.last_verdict = some verdict) :
    (verdict.is_valid = true →
      (route_judge state).1 = JudgeRoute.world_engine_update)
  ∧ (verdict.is_valid = false → state.retry_count < 2 →
      (route_judge state).1 = JudgeRoute.action_resolver ∧
      (route_judge state).2.retry_count = state.retry_count + 1)
  ∧ (verdict.is_valid = false → 2 ≤ state.retry_count →
      (route_judge state).1 = JudgeRoute.world_engine_update) := by
  refine ⟨?_, ?_, ?_⟩
  · intro hv
    simp [route_judge, h, hv]
  · intro hv hlt
    simp [route_judge, h, hv, _max_retry_attempts, hlt]
  · intro hv hge
    simp [route_judge, h, hv, _max_retry_attempts, Nat.not_lt.mpr hge]

/-- C1 witness: a concrete invalid verdict with zero stored retries is sent
back to the action resolver with the counter bumped to 1. -/
theorem route_judge_quality_gate_witness :
    (route_judge { last_verdict := some { is_valid := false } }).1 =
      JudgeRoute.action_resolver ∧
    (route_judge { last_verdict := some { is_valid := false } }).2.retry_count = 1 :=
  (route_judge_quality_gate { last_verdict := some { is_valid := false } }
    { is_valid := false } rfl).2.1 rfl (by decide)

/-- C8 counterexample: with no verdict present and a stored retry count of
1 the router proceeds to the world-update stage, yet the counter is left at
1 rather than reset to zero. -/
theorem route_judge_reset_counterexample :
    (route_judge { last_verdict := none, retry_count := 1 }).1 =
      JudgeRoute.world_engine_update ∧
    (route_judge { last_verdict := none, retry_count := 1 }).2.retry_count = 1 ∧
    ¬ (route_judge { last_verdict := none, retry_count := 1 }).2.retry_count = 0 := by
  decide

/-- C8 amended: the retry counter is reset to zero whenever the router
proceeds to the world-update stage with a verdict present or with the
counter at or above the maximum of 2; in the remaining proceed case (no
verdict present, counter below 2) the state is returned unchanged. -/
theorem route_judge_reset_per_action (state : GameState)
    (hp : (route_judge state).1 = JudgeRoute.world_engine_update) :
    (state.last_verdict.isSome = true ∨ 2 ≤ state.retry_count →
      (route_judge state).2.retry_count = 0)
  ∧ (state.last_verdict = none → state.retry_count < 2 →
      (route_judge state).2 = state) := by
  cases h : state.last_verdict with
  | none =>
    refine ⟨?_, ?_⟩
    · rintro (hs | hge)
      · simp [h] at hs
      · simp [route_judge, h, _max_retry_attempts, hge]
    · intro _ hlt
      simp [route_judge, h, _max_retry_attempts, Nat.not_le.mpr hlt]
  | some verdict =>
    refine ⟨?_, ?_⟩
    · intro _
      cases hv : verdict.is_valid with
      | true => simp [route_judge, h, hv]
      | false =>
        by_cases hlt : state.retry_count < _max_retry_attempts
        · simp [route_judge, h, hv, hlt] at hp
        · simp [route_judge, h, hv, hlt]
    · intro hnone
      exact absurd hnone (by simp)

/-- C8 amended witness: a valid verdict with a stale counter of 5 proceeds
and resets the counter to zero. -/
theorem route_judge_reset_per_action_witness :
    (route_judge { last_verdict := some { is_valid := true }, retry_count := 5 }).2.retry_count
      = 0 :=
  (route_judge_reset_per_action
    { last_verdict := some { is_valid := true }, retry_count := 5 }
    (by decide)).1 (Or.inl (by decide))

/-- C3: `route_dm_plan` is total and never raises: every state is sent to
one of the three declared stage names; a missing or empty `response_type`
goes to `exit_check`; after lowercasing and stripping, `"action"` routes to
the action resolver, `"question"` to the lore-question stage, `"exit"` to
`exit_check`, and every other value to the safe terminal `exit_check`. -/
theorem route_dm_plan_total (state : GameState) :
    (route_dm_plan state = PlanRoute.action_resolver ∨
     route_dm_plan state = PlanRoute.lore_builder_question ∨
     route_dm_plan state = PlanRoute.exit_check)
  ∧ (state.response_type = none → route_dm_plan state = PlanRoute.exit_check)
  ∧ (state.response_type = some ("") → route_dm_plan state = PlanRoute.exit_check)
  ∧ (∀ rt : String, state.response_type = some rt →
      (pyStrip (pyLower rt) = "action" →
        route_dm_plan state = PlanRoute.action_resolver)
    ∧ (pyStrip (pyLower rt) = "question" →
        route_dm_plan state = PlanRoute.lore_builder_question)
    ∧ (pyStrip (pyLower rt) = "exit" →
        route_dm_plan state = PlanRoute.exit_check)
    ∧ (pyStrip (pyLower rt) ≠ "action" → pyStrip (pyLower rt) ≠ "question" →
        route_dm_plan state = PlanRoute.exit_check)) := by
  refine ⟨?_, ?_, ?_, ?_⟩
  · simp only [route_dm_plan]
    split
    · exact Or.inr (Or.inr rfl)
    · split
      · exact Or.inl rfl
      · split
        · exact Or.inr (Or.inl rfl)
        · split
          · exact Or.inr (Or.inr rfl)
          · exact Or.inr (Or.inr rfl)
  · intro h
    simp only [route_dm_plan, h]
    decide
  · intro h
    simp only [route_dm_plan, h]
    decide
  · intro rt h
    by_cases h0 : rt = ""
    · subst h0
      refine ⟨?_, ?_, ?_, ?_⟩
      · intro hc; exact absurd hc (by decide)
      · intro hc; exact absurd hc (by decide)
      · intro hc; exact absurd hc (by decide)
      · intro _ _
        simp only [route_dm_plan, h]
        decide
    · simp only [route_dm_plan, h, Option.getD_some, if_neg h0]
      refine ⟨?_, ?_, ?_, ?_⟩
      · intro heq
        rw [if_pos heq]
      · intro heq
        rw [if_neg (by rw [heq]; decide), if_pos heq]
      · intro heq
        rw [if_neg (by rw [heq]; decide), if_neg (by rw [heq]; decide), if_pos heq]
      · intro hna hnq
        rw [if_neg hna, if_neg hnq, ite_self]

/-- C3 witness: the value `" Action "` (mixed case, surrounding whitespace)
routes to the action resolver. -/
theorem route_dm_plan_total_witness :
    route_dm_plan { response_type := some (" Action ") } = PlanRoute.action_resolver :=
  ((route_dm_plan_total { response_type := some (" Action ") }).2.2.2
    (" Action ") rfl).1 (by decide)

/-- C10: the exit-check node sets the end flag exactly when the messages
list is non-empty and the lowercased content of the last message contains
one of the exit keywords as a substring; in every other case the state is
returned with no field changed. -/
theorem exit_check_node_spec (state : GameState) :
    (∀ last_msg, state.messages.getLast? = some last_msg →
        exit_keywords.any (fun keyword => strHasSub (pyLower last_msg) keyword) = true →
        _exit_check_node state = { state with end_flag := true })
  ∧ (∀ last_msg, state.messages.getLast? = some last_msg →
        exit_keywords.any (fun keyword => strHasSub (pyLower last_msg) keyword) = false →
        _exit_check_node state = state)
  ∧ (state.messages = [] → _exit_check_node state = state) := by
  refine ⟨?_, ?_, ?_⟩
  · intro last_msg h hk
    simp only [_exit_check_node, h, hk]
    rfl
  · intro last_msg h hk
    simp only [_exit_check_node, h, hk]
    rfl
  · intro hm
    simp only [_exit_check_node, hm, List.getLast?_nil]

/-- C10 witness: a last message containing the word `friend` triggers the
exit (substring match on `end`). -/
theorem exit_check_node_spec_witness :
    _exit_check_node { messages := ["You are a good Friend"] } =
      { messages := ["You are a good Friend"], end_flag := true } :=
  (exit_check_node_spec { messages := ["You are a good Friend"] }).1
    ("You are a good Friend") rfl (by decide)

/-- C2: one call to `execute_turn` increments the executor field `turn_number`
by exactly one — at entry, independently of the dice stream, the DM
narration, and the director directives — and the returned game state
metadata turn field equals the incremented turn number. -/
theorem execute_turn_increments_turn_once (gp : GameplayPhaseState)
    (game_state : GameState) (d20 : Nat → Int) (dm : Option String)
    (directives : Directives) :
    (execute_turn gp game_state d20 dm directives).2.turn_number = gp.turn_number + 1
  ∧ (execute_turn gp game_state d20 dm directives).1.turn = gp.turn_number + 1 :=
  ⟨rfl, rfl⟩

/-- C5: after the director-oversight step, `current_tension` is clamped
into `[0, 1]` for every tension adjustment and every starting tension, the
clamped value is appended to the trajectory, and the per-scene turn counter
has been incremented by one. -/
theorem step5_tension_clamped (pacing : PacingMetrics) (directives : Directives) :
    (0 ≤ (_step5_director_oversight pacing directives).current_tension
      ∧ (_step5_director_oversight pacing directives).current_tension ≤ 1)
  ∧ (_step5_director_oversight pacing directives).tension_trajectory
      = pacing.tension_trajectory ++
          [(_step5_director_oversight pacing directives).current_tension]
  ∧ (_step5_director_oversight pacing directives).turns_in_current_scene
      = pacing.turns_in_current_scene + 1 := by
  refine ⟨⟨?_, ?_⟩, rfl, rfl⟩
  · exact le_min (by norm_num) (le_max_left 0 _)
  · exact min_le_left 1 _

/-- Folding `add_event` (history preserved) appends every event to the
campaign chronicle in insertion order. -/
theorem foldl_add_event_chronicle (events : List EventNode) (m : SessionMemory) :
    (events.foldl (fun m e => m.add_event e true) m).campaign_chronicle
      = m.campaign_chronicle ++ events := by
  induction events generalizing m with
  | nil => simp
  | cons e es ih =>
    simp only [List.foldl_cons]
    rw [ih]
    simp [SessionMemory.add_event]

/-- One `add_event` call leaves exactly the suffix of length at most 20 of the
extended short-term window. -/
theorem add_event_recent_eq (m : SessionMemory) (e : EventNode) (p : Bool) :
    (m.add_event e p).recent_events
      = (m.recent_events ++ [e]).drop (m.recent_events.length + 1 - 20) := by
  simp only [SessionMemory.add_event]
  split
  · simp
  · rename_i hle
    simp only [List.length_append, List.length_cons, List.length_nil] at hle
    have h0 : m.recent_events.length + 1 - 20 = 0 := by omega
    rw [h0, List.drop_zero]

/-- Folding `add_event` keeps the short-term window equal to the suffix of
length at most 20 of all events seen, provided the window starts within its
bound. -/
theorem foldl_add_event_recent (events : List EventNode) (m : SessionMemory)
    (h : m.recent_events.length ≤ 20) :
    (events.foldl (fun m e => m.add_event e true) m).recent_events
      = (m.recent_events ++ events).drop
          (m.recent_events.length + events.length - 20) := by
  induction events generalizing m with
  | nil =>
    simp only [List.foldl_nil, List.append_nil, List.length_nil, Nat.add_zero]
    rw [Nat.sub_eq_zero_of_le h, List.drop_zero]
  | cons e es ih =>
    simp only [List.foldl_cons, List.length_cons]
    have hrec := add_event_recent_eq m e true
    have hlen : (m.add_event e true).recent_events.length ≤ 20 := by
      rw [hrec, List.length_drop, List.length_append, List.length_cons, List.length_nil]
      omega
    rw [ih (m.add_event e true) hlen, hrec]
    rw [List.length_drop, List.length_append, List.length_cons, List.length_nil]
    rw [← List.drop_append_of_le_length
      (show m.recent_events.length + 1 - 20 ≤ (m.recent_events ++ [e]).length by
        rw [List.length_append, List.length_cons, List.length_nil]
        omega)]
    rw [List.drop_drop, List.append_assoc, List.singleton_append]
    congr 1
    omega

/-- C4: `should_transition_scene` holds exactly when the per-scene counter
has reached `max_turns_per_scene`, or the scene has run more than 5 turns
at tension below 0.2; step 7 resets the per-scene counter to 0 exactly when
it fires (otherwise the pacing is untouched); and the campaign chronicle of
a full turn is the old chronicle plus the step-6 events of the turn, whether or
not the transition fires. -/
theorem scene_transition_reset (p : PacingMetrics) :
    (p.should_transition_scene = true ↔
      (p.max_turns_per_scene ≤ p.turns_in_current_scene ∨
        (5 < p.turns_in_current_scene ∧ p.current_tension < 1/5)))
  ∧ (p.should_transition_scene = true →
      (_step7_check_scene_transition p).1.turns_in_current_scene = 0)
  ∧ (p.should_transition_scene = false →
      (_step7_check_scene_transition p).1 = p)
  ∧ (∀ (gp : GameplayPhaseState) (gs : GameState) (d20 : Nat → Int)
        (dm : Option String) (dirs : Directives),
      (execute_turn gp gs d20 dm dirs).2.session_memory.campaign_chronicle
        = gp.session_memory.campaign_chronicle ++
            ((execute_turn gp gs d20 dm dirs).2.outcome_tokens.map
              (mkEventNode (gp.turn_number + 1)
                (execute_turn gp gs d20 dm dirs).2.world_state_deltas))) := by
  refine ⟨?_, ?_, ?_, ?_⟩
  · simp [PacingMetrics.should_transition_scene]
  · intro hs
    simp [_step7_check_scene_transition, hs]
  · intro hs
    simp [_step7_check_scene_transition, hs]
  · intro gp gs d20 dm dirs
    exact foldl_add_event_chronicle _ _

/-- C4 witness: a scene at its 10-turn cap fires the transition and the
counter resets to 0. -/
theorem scene_transition_reset_witness :
    (_step7_check_scene_transition { turns_in_current_scene := 10 }).1.turns_in_current_scene
      = 0 :=
  (scene_transition_reset { turns_in_current_scene := 10 }).2.1 (by decide)

/-- C9: the dual-layer memory invariant.  Starting from the fresh memory of
`initialize_gameplay_phase`, after any sequence of `add_event` calls the
campaign chronicle holds every event ever added in insertion order with
nothing removed, while the short-term window is exactly the suffix of the
at most 20 most recently added events and never exceeds length 20; and the
event-recording step produces exactly one `EventNode` per outcome token,
appending all of them to both layers. -/
theorem dual_layer_memory (events : List EventNode) (campaign_id session_id : String)
    (turn_number : Int) (m : SessionMemory)
    (outcome_tokens : List ActionOutcomeToken) (state_changes : List WorldStateChange)
    (hm : m.recent_events.length ≤ 20) :
    ((events.foldl (fun m e => m.add_event e true)
        (initialize_gameplay_phase campaign_id session_id).session_memory).campaign_chronicle
       = events
     ∧ (events.foldl (fun m e => m.add_event e true)
          (initialize_gameplay_phase campaign_id session_id).session_memory).recent_events
         = events.drop (events.length - 20)
     ∧ (events.foldl (fun m e => m.add_event e true)
          (initialize_gameplay_phase campaign_id session_id).session_memory).recent_events.length
         ≤ 20)
  ∧ ((_step6_record_events turn_number m outcome_tokens state_changes).1.length
       = outcome_tokens.length
     ∧ (_step6_record_events turn_number m outcome_tokens state_changes).2.campaign_chronicle
         = m.campaign_chronicle ++
             (_step6_record_events turn_number m outcome_tokens state_changes).1
     ∧ (_step6_record_events turn_number m outcome_tokens state_changes).2.recent_events
         = (m.recent_events ++
             (_step6_record_events turn_number m outcome_tokens state_changes).1).drop
               (m.recent_events.length + outcome_tokens.length - 20)) := by
  have hchron := foldl_add_event_chronicle events
    (initialize_gameplay_phase campaign_id session_id).session_memory
  have hrecent := foldl_add_event_recent events
    (initialize_gameplay_phase campaign_id session_id).session_memory (by simp [initialize_gameplay_phase])
  refine ⟨⟨?_, ?_, ?_⟩, ?_, ?_, ?_⟩
  · simpa [initialize_gameplay_phase] using hchron
  · simpa [initialize_gameplay_phase] using hrecent
  · rw [hrecent]
    simp [initialize_gameplay_phase, List.length_drop]
    omega
  · simp [_step6_record_events]
  · exact foldl_add_event_chronicle _ _
  · have h := foldl_add_event_recent
      (outcome_tokens.map (mkEventNode turn_number state_changes)) m hm
    simpa [List.length_map] using h

/-- C9 witness: one event added to a fresh memory lands in both layers. -/
theorem dual_layer_memory_witness :
    (([{ event_id := "e1", turn_number := 1, phase := "action_resolution" }] :
        List EventNode).foldl (fun m e => m.add_event e true)
        (initialize_gameplay_phase ("campaign_001") ("s1")).session_memory).campaign_chronicle
      = [{ event_id := "e1", turn_number := 1, phase := "action_resolution" }] :=
  (dual_layer_memory [{ event_id := "e1", turn_number := 1, phase := "action_resolution" }]
    ("campaign_001") ("s1") 0 (initialize_gameplay_phase ("campaign_001") ("s1")).session_memory
    [] [] (by decide)).1.1

/-- C6: the difficulty class assigned during resolution depends only on the
intent, following the fixed table (attack 12, investigate 10, dialogue 11,
cast_spell 13, move 8, defend 10, unknown 10, and 10 for every intent
outside the table); the generated roll total is the d20 die plus the
ability modifier; and the token field `meets_dc` is true exactly when the total
is at least the DC. -/
theorem dc_table_and_meets_dc (turn_number : Int) (action_idx : Nat)
    (action : PlayerAction) (players : List Player) (d : Int) :
    (_get_dc_for_intent ActionIntentType.attack = 12
      ∧ _get_dc_for_intent ActionIntentType.investigate = 10
      ∧ _get_dc_for_intent ActionIntentType.dialogue = 11
      ∧ _get_dc_for_intent ActionIntentType.cast_spell = 13
      ∧ _get_dc_for_intent ActionIntentType.move = 8
      ∧ _get_dc_for_intent ActionIntentType.defend = 10
      ∧ _get_dc_for_intent ActionIntentType.unknown = 10)
  ∧ (∀ it : ActionIntentType, it ≠ ActionIntentType.attack →
      it ≠ ActionIntentType.dialogue → it ≠ ActionIntentType.cast_spell →
      it ≠ ActionIntentType.move → _get_dc_for_intent it = 10)
  ∧ (mkOutcomeToken turn_number action_idx action
       (_generate_roll_for_intent action.intent_type players action.performer_id d)).difficulty_class
      = some (_get_dc_for_intent action.intent_type)
  ∧ (_generate_roll_for_intent action.intent_type players action.performer_id d).total
      = d + (_generate_roll_for_intent action.intent_type players action.performer_id d).modifier
  ∧ ((mkOutcomeToken turn_number action_idx action
        (_generate_roll_for_intent action.intent_type players action.performer_id d)).meets_dc
       = some true ↔
     _get_dc_for_intent action.intent_type ≤
       (_generate_roll_for_intent action.intent_type players action.performer_id d).total) := by
  refine ⟨⟨rfl, rfl, rfl, rfl, rfl, rfl, rfl⟩, ?_, rfl, rfl, ?_⟩
  · intro it h1 h2 h3 h4
    cases it <;> simp_all [_get_dc_for_intent]
  · simp [mkOutcomeToken, decide_eq_true_iff]

/-- C6 witness: an off-table intent gets the default DC of 10, and a
concrete attack roll totalling 14 (no character found, modifier 0) meets
the attack DC of 12. -/
theorem dc_table_and_meets_dc_witness :
    _get_dc_for_intent ActionIntentType.interact = 10
  ∧ (mkOutcomeToken 1 0 ⟨"p1", ActionIntentType.attack, "swing sword"⟩
      (_generate_roll_for_intent ActionIntentType.attack [] "p1" 14)).meets_dc = some true := by
  have h := dc_table_and_meets_dc 1 0 ⟨"p1", ActionIntentType.attack, "swing sword"⟩ [] 14
  exact ⟨h.2.1 ActionIntentType.interact (by decide) (by decide) (by decide) (by decide),
         h.2.2.2.2.mpr (by decide)⟩

/-- C7: damage is computed only on success — it is 0 whenever `meets_dc` is
false, for every intent, roll and DC — and an attack whose roll total is 15
against the attack DC of 12 meets the DC and deals `6 + (15 - 12) = 9 > 0`
damage. -/
theorem damage_only_on_success (intent_type : ActionIntentType) (roll : RollResult)
    (dc : Int) (action : PlayerAction) (r : RollResult) (turn_number : Int)
    (action_idx : Nat) (hattack : action.intent_type = ActionIntentType.attack)
    (h15 : r.total = 15) :
    _calculate_damage intent_type roll dc false = 0
  ∧ (mkOutcomeToken turn_number action_idx action r).meets_dc = some true
  ∧ (mkOutcomeToken turn_number action_idx action r).damage_dealt = 9
  ∧ 0 < (mkOutcomeToken turn_number action_idx action r).damage_dealt := by
  have hm : (mkOutcomeToken turn_number action_idx action r).meets_dc = some true := by
    simp [mkOutcomeToken, hattack, _get_dc_for_intent, h15]
  have hd : (mkOutcomeToken turn_number action_idx action r).damage_dealt = 9 := by
    simp [mkOutcomeToken, hattack, _get_dc_for_intent, _calculate_damage, h15]
  exact ⟨rfl, hm, hd, by rw [hd]; norm_num⟩

/-- C7 witness: a failed move deals no damage; a concrete attack with total
15 against DC 12 deals 9 damage. -/
theorem damage_only_on_success_witness :
    _calculate_damage ActionIntentType.move
      { dice_type := "d20", rolls := [7], total := 7 } 8 false = 0
  ∧ (mkOutcomeToken 1 0 ⟨"p1", ActionIntentType.attack, "strike"⟩
      { dice_type := "d20", rolls := [15], total := 15 }).damage_dealt = 9 := by
  have h := damage_only_on_success ActionIntentType.move
    { dice_type := "d20", rolls := [7], total := 7 } 8
    ⟨"p1", ActionIntentType.attack, "strike"⟩
    { dice_type := "d20", rolls := [15], total := 15 } 1 0 rfl rfl
  exact ⟨h.1, h.2.2.1⟩
